import Mathlib

/-
Verification of the hypr-switcher session-coordination core.

The definitions below are shallow embeddings of the C functions in
src/wayland.c, src/ipc.c, src/switcher_ipc.c and src/hypr_events.c.
Machine strings are modelled as Lean Strings / lists of Chars, C ints as
Int, NULL-able C strings as Option String.  Fixed-size C buffers are
modelled as unbounded strings (all inputs considered here fit the
buffers).  Stateful code over the g_* globals of wayland.c is modelled
as explicit state passing over a SwitcherState record.
-/

namespace HyprSwitcher

/-- A window record, struct HyprClientInfo from ipc.h.  char* fields that
may be NULL are Option String. -/
structure HyprClientInfo where
  address : Option String
  title : Option String
  app_class : Option String
  workspace_id : Int
  pid : Int
  focused : Bool
  focusHistoryID : Int
deriving DecidableEq

/-- The orchestrator's session state: the g_clients / g_selection_index /
g_initial_focus_index / g_initial_focus_address / g_selected_address /
g_needs_redraw globals of wayland.c. -/
structure SwitcherState where
  clients : List HyprClientInfo
  selectionIndex : Int
  initialFocusIndex : Int
  initialFocusAddress : Option String
  selectedAddress : Option String
  needsRedraw : Bool
deriving DecidableEq

/-- selection_set from wayland.c: if the client list is empty force index -1
and leave the selected address untouched; otherwise clamp or wrap the
requested index into bounds, recompute the selected address from the
resulting record, and raise the redraw flag when the index changed. -/
def selection_set (s : SwitcherState) (newIndex : Int) (wrap : Bool) : SwitcherState :=
  if s.clients.length = 0 then
    { s with selectionIndex := -1,
             needsRedraw := if s.selectionIndex = -1 then s.needsRedraw else true }
  else
    let count : Int := (s.clients.length : Int)
    let ni : Int :=
      if newIndex < 0 then (if wrap then count - 1 else 0)
      else if newIndex ≥ count then (if wrap then 0 else count - 1)
      else newIndex
    let addr : Option String :=
      if 0 ≤ ni ∧ ni < count then s.clients[ni.toNat]?.bind (fun c => c.address)
      else none
    { s with selectionIndex := ni,
             selectedAddress := addr,
             needsRedraw := if s.selectionIndex = ni then s.needsRedraw else true }

/-- Helper for find_client_by_address: scan from position i. -/
def findAddressFrom (clients : List HyprClientInfo) (a : String) (i : Nat) : Int :=
  match clients with
  | [] => -1
  | c :: rest => if c.address = some a then (i : Int) else findAddressFrom rest a (i + 1)

/-- find_client_by_address from wayland.c: index of the first client whose
address matches, -1 when the address is NULL or not present. -/
def find_client_by_address (clients : List HyprClientInfo) (address : Option String) : Int :=
  match address with
  | none => -1
  | some a => findAddressFrom clients a 0

/-- preserve_selection from wayland.c: after the list was replaced, relocate
the previously selected address; if absent, re-clamp the old numeric index. -/
def preserve_selection (s : SwitcherState) : SwitcherState :=
  if s.clients.length = 0 then
    selection_set s (-1) false
  else
    match s.selectedAddress with
    | some a =>
      if 0 ≤ find_client_by_address s.clients (some a) then
        selection_set s (find_client_by_address s.clients (some a)) false
      else selection_set s s.selectionIndex false
    | none => selection_set s s.selectionIndex false

/-- cycle_forward from wayland.c. -/
def cycle_forward (s : SwitcherState) : SwitcherState :=
  if 0 < s.clients.length then selection_set s (s.selectionIndex + 1) true else s

/-- cycle_backward from wayland.c. -/
def cycle_backward (s : SwitcherState) : SwitcherState :=
  if 0 < s.clients.length then selection_set s (s.selectionIndex - 1) true else s

/-- The clamp arithmetic selection_set applies when wrap is false. -/
def clampIndex (n : Int) (len : Nat) : Int :=
  if n < 0 then 0 else if n ≥ (len : Int) then (len : Int) - 1 else n

/-- The SelectionState invariant of the spec: non-empty list means the cursor
is a valid index, empty list means cursor none (-1). -/
def SelectionInvariant (s : SwitcherState) : Prop :=
  (s.clients.length = 0 → s.selectionIndex = -1) ∧
  (s.clients.length ≠ 0 →
    0 ≤ s.selectionIndex ∧ s.selectionIndex < (s.clients.length : Int))

instance (s : SwitcherState) : Decidable (SelectionInvariant s) := by
  unfold SelectionInvariant
  infer_instance

/-- One cycling operation (which of the two cycle helpers runs). -/
inductive CycleOp where
  | fwd
  | bwd
deriving DecidableEq

/-- Run a single cycling operation. -/
def applyCycleOp : CycleOp → SwitcherState → SwitcherState
  | CycleOp.fwd, s => cycle_forward s
  | CycleOp.bwd, s => cycle_backward s

/-- Run a finite sequence of cycling operations, leftmost first. -/
def applyCycles : List CycleOp → SwitcherState → SwitcherState
  | [], s => s
  | op :: ops, s => applyCycles ops (applyCycleOp op s)

/-- The four edge-triggered input signals plus the shift level signal read
by the signal-check section of wayland_loop_with_ipc. -/
structure InputSignals where
  focusLost : Bool
  escapePressed : Bool
  altTabTriggered : Bool
  shiftDown : Bool
  altReleased : Bool
deriving DecidableEq

/-- Which focus request the loop issues while terminating. -/
inductive FocusAction where
  | noAction
  | focusSelected (target : Option HyprClientInfo)
  | restoreInitial (target : Option HyprClientInfo)
deriving DecidableEq

/-- Whether the session keeps running after a loop step. -/
inductive LoopPhase where
  | active
  | terminated
deriving DecidableEq

/-- wayland_focus_selected from wayland.c: the client the commit path
attempts to focus, namely the record at the selection index when that
index is valid. -/
def wayland_focus_selected_target (s : SwitcherState) : Option HyprClientInfo :=
  if 0 < s.clients.length ∧ 0 ≤ s.selectionIndex ∧
      s.selectionIndex < (s.clients.length : Int) then
    s.clients[s.selectionIndex.toNat]?
  else
    none

/-- wayland_restore_initial_focus from wayland.c: the client the cancel path
attempts to focus.  It first looks the anchor address up in the current
list, and falls back to the anchor's original index when the address is
NULL or no longer present. -/
def wayland_restore_initial_focus_target (s : SwitcherState) : Option HyprClientInfo :=
  let fallback : Option HyprClientInfo :=
    if 0 < s.clients.length ∧ 0 ≤ s.initialFocusIndex ∧
        s.initialFocusIndex < (s.clients.length : Int) then
      s.clients[s.initialFocusIndex.toNat]?
    else
      none
  match s.initialFocusAddress with
  | some a =>
    let found := find_client_by_address s.clients (some a)
    if 0 ≤ found then s.clients[found.toNat]? else fallback
  | none => fallback

/-- The input-signal dispatch section of wayland_loop_with_ipc, checked in
source order: focus lost, escape, alt-tab chord, alt released.  Returns the
focus request made, the phase after the step and the updated state. -/
def input_dispatch (sig : InputSignals) (s : SwitcherState) :
    FocusAction × LoopPhase × SwitcherState :=
  if sig.focusLost then
    (FocusAction.focusSelected (wayland_focus_selected_target s), LoopPhase.terminated, s)
  else if sig.escapePressed then
    (FocusAction.restoreInitial (wayland_restore_initial_focus_target s),
      LoopPhase.terminated, s)
  else if sig.altTabTriggered then
    if 0 < s.clients.length then
      (FocusAction.noAction, LoopPhase.active,
        if sig.shiftDown then cycle_backward s else cycle_forward s)
    else
      (FocusAction.noAction, LoopPhase.active, s)
  else if sig.altReleased then
    (FocusAction.focusSelected (wayland_focus_selected_target s), LoopPhase.terminated, s)
  else
    (FocusAction.noAction, LoopPhase.active, s)

/-- Modelled from the spec: the body of hypr_ipc_sort_clients_by_focus is not
under src/ (only its declaration in ipc.h and its callers in wayland.c are),
so the order is taken from the spec's words: ascending by focusHistoryId with
the sentinel -1 ordered greater than every real value. -/
def FocusLe (a b : HyprClientInfo) : Prop :=
  if a.focusHistoryID = -1 then b.focusHistoryID = -1
  else if b.focusHistoryID = -1 then True
  else a.focusHistoryID ≤ b.focusHistoryID

instance : DecidableRel FocusLe := by
  intro a b
  unfold FocusLe
  infer_instance

instance : IsTotal HyprClientInfo FocusLe := by
  constructor
  intro a b
  unfold FocusLe
  split_ifs <;> try tauto
  all_goals omega

instance : IsTrans HyprClientInfo FocusLe := by
  constructor
  intro a b c hab hbc
  unfold FocusLe at *
  split_ifs at * <;> try trivial
  all_goals omega

/-- Modelled from the spec: hypr_ipc_sort_clients_by_focus, a stable sort of
the client list by focus recency (insertion sort is stable), per the ipc.h
declaration comment and the spec sentence quoted at FocusLe. -/
def hypr_ipc_sort_clients_by_focus (l : List HyprClientInfo) : List HyprClientInfo :=
  List.insertionSort FocusLe l

/-- The state-initialisation part of layer_surface_configure in wayland.c,
run on the first successful configure: fetch (the fetched list is the
argument), sort by focus recency, record the anchor at index 0, and start
the cursor at 1 when at least two windows exist, at 0 when exactly one
does, and at -1 (none) otherwise. -/
def layer_surface_configure_state (fetched : List HyprClientInfo) : SwitcherState :=
  let cs := hypr_ipc_sort_clients_by_focus fetched
  let selIdx : Int :=
    if 1 < cs.length then 1 else if cs.length = 1 then 0 else -1
  let selAddr : Option String :=
    if 0 ≤ selIdx then cs[selIdx.toNat]?.bind (fun c => c.address)
    else none
  { clients := cs
    selectionIndex := selIdx
    initialFocusIndex := 0
    initialFocusAddress :=
      match cs with
      | [] => none
      | c :: _ => c.address
    selectedAddress := selAddr
    needsRedraw := false }

/-- SwitcherCmdType from switcher_ipc.h. -/
inductive SwitcherCmdType where
  | noCmd
  | cycle
  | cycleBackward
  | commit
  | cancel
  | unknown
deriving DecidableEq

/-- SWITCHER_IPC_MSG_SIZE from switcher_ipc.h. -/
def SWITCHER_IPC_MSG_SIZE : Nat := 16

/-- Command strings from switcher_ipc.h. -/
def SWITCHER_CMD_CYCLE : String := "CYCLE"

def SWITCHER_CMD_CYCLE_BACKWARD : String := "CYCLE_BACKWARD"

def SWITCHER_CMD_COMMIT : String := "COMMIT"

def SWITCHER_CMD_CANCEL : String := "CANCEL"

/-- The frame switcher_ipc_send writes: a zeroed 16-byte buffer into which
strncpy copies at most 15 characters of the command, leaving the rest as
NUL padding; the whole 16 bytes are written. -/
def switcher_ipc_send (command : String) : List Char :=
  let copied := command.toList.take (SWITCHER_IPC_MSG_SIZE - 1)
  copied ++ List.replicate (SWITCHER_IPC_MSG_SIZE - copied.length) (Char.ofNat 0)

/-- strncmp(msg, pat, strlen(pat)) == 0 for a NUL-free pattern: the first
strlen(pat) bytes of msg equal pat. -/
def matchesAtStart : List Char → List Char → Bool
  | [], _ => true
  | _ :: _, [] => false
  | p :: ps, m :: ms => p == m && matchesAtStart ps ms

/-- The command-classification part of switcher_ipc_read_command in
switcher_ipc.c: the leading bytes of a full frame are matched against the
four command strings, CYCLE_BACKWARD checked before CYCLE. -/
def switcher_ipc_read_command (msg : List Char) : SwitcherCmdType :=
  if matchesAtStart SWITCHER_CMD_CYCLE_BACKWARD.toList msg then
    SwitcherCmdType.cycleBackward
  else if matchesAtStart SWITCHER_CMD_CYCLE.toList msg then
    SwitcherCmdType.cycle
  else if matchesAtStart SWITCHER_CMD_COMMIT.toList msg then
    SwitcherCmdType.commit
  else if matchesAtStart SWITCHER_CMD_CANCEL.toList msg then
    SwitcherCmdType.cancel
  else
    SwitcherCmdType.unknown

/-- HyprEventType from hypr_events.h. -/
inductive HyprEventType where
  | eventNone
  | openWindow
  | closeWindow
  | activeWindow
  | moveWindow
  | unknownEvent
deriving DecidableEq

/-- HyprEvent from hypr_events.h: the zero-initialised struct has empty
strings and, after parse_event_line's own initialisation, workspace_id -1. -/
structure HyprEvent where
  type : HyprEventType
  address : String
  window_class : String
  title : String
  workspace_id : Int
deriving DecidableEq

/-- The event struct as parse_event_line initialises it before parsing. -/
def emptyHyprEvent : HyprEvent :=
  { type := HyprEventType.eventNone
    address := ""
    window_class := ""
    title := ""
    workspace_id := -1 }

/-- The whitespace characters isspace accepts in the C locale. -/
def isSpaceChar (c : Char) : Bool :=
  c = ' ' || c = '\t' || c = '\n' || c = '\x0b' || c = '\x0c' || c = '\r'

/-- Accumulate the leading decimal digits, as atoi does. -/
def atoiDigits : List Char → Int → Int
  | [], acc => acc
  | c :: rest, acc =>
    if c.isDigit then atoiDigits rest (acc * 10 + ((c.toNat : Int) - 48)) else acc

/-- C atoi over a character list: skip whitespace, read an optional sign and
the leading digits; no leading digits yields 0. -/
def atoiChars (cs : List Char) : Int :=
  match cs.dropWhile isSpaceChar with
  | '-' :: rest => - atoiDigits rest 0
  | '+' :: rest => atoiDigits rest 0
  | rest => atoiDigits rest 0

/-- C atoi on a string. -/
def atoi (s : String) : Int :=
  atoiChars s.toList

/-- strstr-style split at the first occurrence of the ">>" separator:
the text before it and the text after it, or none when absent. -/
def splitAtSep : List Char → Option (List Char × List Char)
  | [] => none
  | [_] => none
  | c :: d :: rest =>
    if c = '>' ∧ d = '>' then some ([], rest)
    else
      match splitAtSep (d :: rest) with
      | some (pre, post) => some (c :: pre, post)
      | none => none

/-- Split at every comma, keeping empty segments (the raw comma split). -/
def splitCommas : List Char → List (List Char)
  | [] => [[]]
  | c :: rest =>
    if c = ',' then [] :: splitCommas rest
    else
      match splitCommas rest with
      | [] => [[c]]
      | t :: ts => (c :: t) :: ts

/-- Rejoin comma-split segments with commas. -/
def joinCommas : List (List Char) → List Char
  | [] => []
  | [t] => t
  | t :: ts => t ++ ',' :: joinCommas ts

/-- strtok_r over "," produces the maximal non-empty comma-free substrings:
empty tokens between, before or after delimiters are skipped. -/
def strtokCommas (data : List Char) : List (List Char) :=
  (splitCommas data).filter (fun t => t.length != 0)

/-- The openwindow field loop of parse_event_line: field 0 is the address
(prefixed with 0x), field 1 the workspace id via atoi, field 2 the class and
field 3 the title, with any remaining comma-split tokens rejoined onto the
title with commas. -/
def parseOpenWindowData (data : List Char) : HyprEvent :=
  let base := { emptyHyprEvent with type := HyprEventType.openWindow }
  match strtokCommas data with
  | [] => base
  | a :: rest1 =>
    let ev0 := { base with address := String.mk ('0' :: 'x' :: a) }
    match rest1 with
    | [] => ev0
    | w :: rest2 =>
      let ev1 := { ev0 with workspace_id := atoiChars w }
      match rest2 with
      | [] => ev1
      | c :: rest3 =>
        let ev2 := { ev1 with window_class := String.mk c }
        match rest3 with
        | [] => ev2
        | t :: rest4 => { ev2 with title := String.mk (joinCommas (t :: rest4)) }

/-- parse_event_line from hypr_events.c: split a line at its first ">>" into
EVENTNAME and DATA and decode DATA per event.  The Bool mirrors the C return
value (false for a line without ">>" and for an unknown event name). -/
def parse_event_line (line : String) : Bool × HyprEvent :=
  match splitAtSep line.toList with
  | none => (false, emptyHyprEvent)
  | some (name, data) =>
    if name = "openwindow".toList then
      (true, parseOpenWindowData data)
    else if name = "closewindow".toList then
      (true, { emptyHyprEvent with
                 type := HyprEventType.closeWindow
                 address := String.mk ('0' :: 'x' :: data) })
    else if name = "activewindow".toList then
      let ev :=
        match splitCommas data with
        | [] => emptyHyprEvent
        | [c] => { emptyHyprEvent with window_class := String.mk c }
        | c :: t :: rest2 =>
          { emptyHyprEvent with
              window_class := String.mk c
              title := String.mk (joinCommas (t :: rest2)) }
      (true, { ev with type := HyprEventType.activeWindow })
    else if name = "movewindow".toList then
      let ev :=
        match splitCommas data with
        | [] => emptyHyprEvent
        | [_] => emptyHyprEvent
        | a :: w :: rest2 =>
          { emptyHyprEvent with
              address := String.mk ('0' :: 'x' :: a)
              workspace_id := atoiChars (joinCommas (w :: rest2)) }
      (true, { ev with type := HyprEventType.moveWindow })
    else
      (false, { emptyHyprEvent with type := HyprEventType.unknownEvent })

/-- A JSON value as json-c represents it.  json-c stores a JSON null inside
an object as a NULL object pointer, so jnull never appears as a field value
after lookup (jsonGet maps it to none). -/
inductive Json where
  | jnull
  | jbool (b : Bool)
  | jint (n : Int)
  | jstr (s : String)
  | jarr (elems : List Json)
  | jobj (fields : List (String × Json))

mutual

/-- json_object_to_json_string in plain mode, used by json_object_get_string
on non-string values. -/
def jsonSerialize : Json → String
  | Json.jnull => "null"
  | Json.jbool b => if b then "true" else "false"
  | Json.jint n => toString n
  | Json.jstr s => "\"" ++ s ++ "\""
  | Json.jarr l => "[" ++ jsonSerializeList l ++ "]"
  | Json.jobj l => "\x7b" ++ jsonSerializeObj l ++ "\x7d"

def jsonSerializeList : List Json → String
  | [] => ""
  | [x] => jsonSerialize x
  | x :: y :: rest => jsonSerialize x ++ "," ++ jsonSerializeList (y :: rest)

def jsonSerializeObj : List (String × Json) → String
  | [] => ""
  | [(k, v)] => "\"" ++ k ++ "\":" ++ jsonSerialize v
  | (k, v) :: y :: rest =>
    "\"" ++ k ++ "\":" ++ jsonSerialize v ++ "," ++ jsonSerializeObj (y :: rest)

end

/-- json_object_object_get: first binding for the key; a missing key and an
explicit JSON null both come back as NULL (none). -/
def jsonGet (v : Json) (key : String) : Option Json :=
  match v with
  | Json.jobj fields =>
    match fields.lookup key with
    | some Json.jnull => none
    | r => r
  | _ => none

/-- json_object_get_string on a non-NULL value: the string itself for a
string, the serialised text otherwise. -/
def jsonGetString : Json → String
  | Json.jstr s => s
  | v => jsonSerialize v

/-- dup_json_string_field from ipc.c. -/
def dup_json_string_field (obj : Json) (key : String) : Option String :=
  match jsonGet obj key with
  | none => none
  | some v => some (jsonGetString v)

/-- get_workspace_id_from_client from ipc.c: the nested object's id field,
or a bare integer, else -1. -/
def get_workspace_id_from_client (c : Json) : Int :=
  match jsonGet c "workspace" with
  | none => -1
  | some ws =>
    match ws with
    | Json.jobj _ =>
      match jsonGet ws "id" with
      | some (Json.jint n) => n
      | _ => -1
    | Json.jint n => n
    | _ => -1

/-- The per-element record construction of hypr_ipc_get_clients_basic:
non-object elements are skipped; pid and focusHistoryID default to -1;
focused is set exactly when the focusHistoryID field is the integer 0; an
absent or empty title becomes "(untitled)"; the class falls back from
"class" to "initialClass". -/
def clientFromJson (c : Json) : Option HyprClientInfo :=
  match c with
  | Json.jobj _ =>
    let pid : Int :=
      match jsonGet c "pid" with
      | some (Json.jint n) => n
      | _ => -1
    let fh : Int :=
      match jsonGet c "focusHistoryID" with
      | some (Json.jint n) => n
      | _ => -1
    let title0 := dup_json_string_field c "title"
    let title : String :=
      match title0 with
      | none => "(untitled)"
      | some t => if t = "" then "(untitled)" else t
    let cls : Option String :=
      match dup_json_string_field c "class" with
      | some s => some s
      | none => dup_json_string_field c "initialClass"
    some
      { address := dup_json_string_field c "address"
        title := some title
        app_class := cls
        workspace_id := get_workspace_id_from_client c
        pid := pid
        focused := fh = 0
        focusHistoryID := fh }
  | _ => none

/-- The response-mapping part of hypr_ipc_get_clients_basic from ipc.c: a
non-array response is an error (none); an array maps element-wise to
records, skipping non-objects, and an empty array is success with zero
records. -/
def hypr_ipc_get_clients_basic (resp : Json) : Option (List HyprClientInfo) :=
  match resp with
  | Json.jarr elems => some (elems.filterMap clientFromJson)
  | _ => none

/-- A concrete client used in witnesses. -/
def exClientA : HyprClientInfo :=
  { address := some "0xa"
    title := some "Editor"
    app_class := some "editor"
    workspace_id := 1
    pid := 10
    focused := true
    focusHistoryID := 0 }

/-- A second concrete client used in witnesses. -/
def exClientB : HyprClientInfo :=
  { address := some "0xb"
    title := some "Terminal"
    app_class := some "terminal"
    workspace_id := 1
    pid := 11
    focused := false
    focusHistoryID := 1 }

/-- A third concrete client used in witnesses. -/
def exClientC : HyprClientInfo :=
  { address := some "0xc"
    title := some "Browser"
    app_class := some "browser"
    workspace_id := 2
    pid := 12
    focused := false
    focusHistoryID := 2 }

/-- A concrete session state over two clients with the second selected, as
the initial configure would produce it. -/
def exState2 : SwitcherState :=
  { clients := [exClientA, exClientB]
    selectionIndex := 1
    initialFocusIndex := 0
    initialFocusAddress := some "0xa"
    selectedAddress := some "0xb"
    needsRedraw := false }

/-- A concrete session state over a single client. -/
def exState1 : SwitcherState :=
  { clients := [exClientA]
    selectionIndex := 0
    initialFocusIndex := 0
    initialFocusAddress := some "0xa"
    selectedAddress := some "0xa"
    needsRedraw := false }

/-- A concrete session state with no clients. -/
def exStateEmpty : SwitcherState :=
  { clients := []
    selectionIndex := -1
    initialFocusIndex := -1
    initialFocusAddress := none
    selectedAddress := some "0xb"
    needsRedraw := false }

/-- A post-refresh state whose previously selected address 0xc still occurs
in the replacement list, at index 1. -/
def exRefreshFound : SwitcherState :=
  { clients := [exClientA, exClientC]
    selectionIndex := 2
    initialFocusIndex := 0
    initialFocusAddress := some "0xa"
    selectedAddress := some "0xc"
    needsRedraw := false }

/-- A post-refresh state whose previously selected address 0xb is absent
from the 2-element replacement list, previous cursor 2. -/
def exRefreshGone : SwitcherState :=
  { clients := [exClientA, exClientC]
    selectionIndex := 2
    initialFocusIndex := 0
    initialFocusAddress := some "0xa"
    selectedAddress := some "0xb"
    needsRedraw := false }

/-- The signal record for a bare focus-lost wakeup. -/
def focusLostSignals : InputSignals :=
  { focusLost := true
    escapePressed := false
    altTabTriggered := false
    shiftDown := false
    altReleased := false }

/-- A client record carrying only a focus-history id, for sort examples. -/
def mkFh (n : Int) : HyprClientInfo :=
  { address := none
    title := none
    app_class := none
    workspace_id := -1
    pid := -1
    focused := n = 0
    focusHistoryID := n }

/-- The directory-parse scenario input from the spec: a one-element client
array with an empty title, focusHistoryID 0 and a nested workspace object. -/
def exClientsJson : Json :=
  Json.jarr
    [Json.jobj
      [("address", Json.jstr "0x1"),
       ("title", Json.jstr ""),
       ("class", Json.jstr "foo"),
       ("focusHistoryID", Json.jint 0),
       ("workspace", Json.jobj [("id", Json.jint 3)])]]

/-- The record the directory-parse scenario is expected to produce. -/
def exParsedClient : HyprClientInfo :=
  { address := some "0x1"
    title := some "(untitled)"
    app_class := some "foo"
    workspace_id := 3
    pid := -1
    focused := true
    focusHistoryID := 0 }

/- ======================================================================
   Theorems
   ====================================================================== -/

theorem selection_set_clients (s : SwitcherState) (n : Int) (w : Bool) :
    (selection_set s n w).clients = s.clients := by
  unfold selection_set
  split <;> rfl

theorem selection_set_index_mem (s : SwitcherState) (n : Int) (w : Bool)
    (h : ¬ s.clients.length = 0) :
    0 ≤ (selection_set s n w).selectionIndex ∧
      (selection_set s n w).selectionIndex < (s.clients.length : Int) := by
  simp only [selection_set, if_neg h]
  split_ifs <;> constructor <;> omega

theorem selection_set_inrange (s : SwitcherState) (n : Int) (w : Bool)
    (h1 : 0 ≤ n) (h2 : n < (s.clients.length : Int)) :
    (selection_set s n w).selectionIndex = n := by
  have hne : ¬ s.clients.length = 0 := by omega
  simp only [selection_set, if_neg hne]
  split_ifs <;> omega

theorem selection_set_clamp (s : SwitcherState) (n : Int)
    (h : ¬ s.clients.length = 0) :
    (selection_set s n false).selectionIndex = clampIndex n s.clients.length := by
  simp only [selection_set, clampIndex, if_neg h]
  split_ifs <;> first | omega | simp_all

theorem applyCycleOp_invariant (op : CycleOp) (s : SwitcherState)
    (h : SelectionInvariant s) : SelectionInvariant (applyCycleOp op s) := by
  have key : ∀ n : Int,
      SelectionInvariant (if 0 < s.clients.length then selection_set s n true else s) := by
    intro n
    by_cases hlen : 0 < s.clients.length
    · rw [if_pos hlen]
      constructor
      · intro h0
        rw [selection_set_clients] at h0
        exfalso
        omega
      · intro _
        rw [selection_set_clients]
        exact selection_set_index_mem s n true (by omega)
    · rw [if_neg hlen]
      exact h
  cases op with
  | fwd => exact key (s.selectionIndex + 1)
  | bwd => exact key (s.selectionIndex - 1)

/-- C2: from any state satisfying the SelectionState invariant, every finite
sequence of cycleForward / cycleBackward calls leaves the cursor inside
[0, len) when the window sequence is non-empty, and at none (-1) when it is
empty. -/
theorem cycle_sequence_invariant (ops : List CycleOp) (s : SwitcherState)
    (h : SelectionInvariant s) : SelectionInvariant (applyCycles ops s) := by
  induction ops generalizing s with
  | nil => exact h
  | cons op ops ih => exact ih (applyCycleOp op s) (applyCycleOp_invariant op s h)

/-- Witness for C2 at a concrete two-client state and operation sequence. -/
theorem cycle_sequence_invariant_witness :
    SelectionInvariant
      (applyCycles [CycleOp.fwd, CycleOp.fwd, CycleOp.bwd] exState2) :=
  cycle_sequence_invariant [CycleOp.fwd, CycleOp.fwd, CycleOp.bwd] exState2 (by decide)

/-- C10: selection_set on a non-empty sequence always leaves the cursor in
bounds with the stored selected address equal to the address field of the
record at the resulting cursor; on an empty sequence it sets the cursor to
none (-1) and leaves the selected address unchanged. -/
theorem selection_set_address_coherence (s : SwitcherState) (n : Int) (w : Bool) :
    (¬ s.clients.length = 0 →
        0 ≤ (selection_set s n w).selectionIndex ∧
        (selection_set s n w).selectionIndex < (s.clients.length : Int) ∧
        (selection_set s n w).selectedAddress =
          s.clients[(selection_set s n w).selectionIndex.toNat]?.bind
            (fun c => c.address)) ∧
    (s.clients.length = 0 →
        (selection_set s n w).selectionIndex = -1 ∧
        (selection_set s n w).selectedAddress = s.selectedAddress) := by
  constructor
  · intro hne
    have bounds := selection_set_index_mem s n w hne
    refine ⟨bounds.1, bounds.2, ?_⟩
    simp only [selection_set, if_neg hne] at bounds ⊢
    rw [if_pos ⟨bounds.1, bounds.2⟩]
  · intro h0
    unfold selection_set
    rw [if_pos h0]
    exact ⟨rfl, rfl⟩

/-- Witness for C10 at a concrete state, exercising both conjuncts. -/
theorem selection_set_address_coherence_witness :
    (0 ≤ (selection_set exState2 5 true).selectionIndex ∧
      (selection_set exState2 5 true).selectionIndex <
        (exState2.clients.length : Int) ∧
      (selection_set exState2 5 true).selectedAddress =
        exState2.clients[(selection_set exState2 5 true).selectionIndex.toNat]?.bind
          (fun c => c.address)) ∧
    ((selection_set exStateEmpty 3 true).selectionIndex = -1 ∧
      (selection_set exStateEmpty 3 true).selectedAddress =
        exStateEmpty.selectedAddress) :=
  ⟨(selection_set_address_coherence exState2 5 true).1 (by decide),
   (selection_set_address_coherence exStateEmpty 3 true).2 (by decide)⟩

theorem findAddressFrom_spec (a : String) :
    ∀ (clients : List HyprClientInfo) (i : Nat),
      findAddressFrom clients a i = -1 ∨
        ((i : Int) ≤ findAddressFrom clients a i ∧
          findAddressFrom clients a i < (i : Int) + clients.length)
  | [], _ => Or.inl rfl
  | c :: rest, i => by
    unfold findAddressFrom
    by_cases hc : c.address = some a
    · rw [if_pos hc]
      right
      refine ⟨by omega, ?_⟩
      push_cast [List.length_cons]
      omega
    · rw [if_neg hc]
      rcases findAddressFrom_spec a rest (i + 1) with h | ⟨h1, h2⟩
      · exact Or.inl h
      · right
        push_cast [List.length_cons] at h1 h2 ⊢
        constructor <;> omega

/-- C4: after a refresh installs a new non-empty window sequence, if the
previously selected address occurs in it the cursor moves to that record's
(first) index; if it does not occur, the previous numeric cursor is clamped
into the new bounds and is in particular never out of bounds. -/
theorem preserve_selection_spec (s : SwitcherState)
    (hne : ¬ s.clients.length = 0) :
    (∀ i : Int, find_client_by_address s.clients s.selectedAddress = i → 0 ≤ i →
        (preserve_selection s).selectionIndex = i) ∧
    (find_client_by_address s.clients s.selectedAddress = -1 →
        (preserve_selection s).selectionIndex =
          clampIndex s.selectionIndex s.clients.length ∧
        0 ≤ (preserve_selection s).selectionIndex ∧
        (preserve_selection s).selectionIndex < (s.clients.length : Int)) := by
  constructor
  · intro i hfind hi
    unfold preserve_selection
    rw [if_neg hne]
    cases hsel : s.selectedAddress with
    | none =>
      exfalso
      rw [hsel] at hfind
      simp only [find_client_by_address] at hfind
      omega
    | some a =>
      rw [hsel] at hfind
      dsimp only
      rw [hfind, if_pos hi]
      have hlt : i < (s.clients.length : Int) := by
        have hspec := findAddressFrom_spec a s.clients 0
        simp only [find_client_by_address] at hfind
        rcases hspec with h | ⟨_, h2⟩ <;> omega
      exact selection_set_inrange s i false hi hlt
  · intro hfind
    have hclamp : (preserve_selection s).selectionIndex =
        clampIndex s.selectionIndex s.clients.length := by
      unfold preserve_selection
      rw [if_neg hne]
      cases hsel : s.selectedAddress with
      | none => exact selection_set_clamp s s.selectionIndex hne
      | some a =>
        rw [hsel] at hfind
        dsimp only
        rw [hfind, if_neg (by omega)]
        exact selection_set_clamp s s.selectionIndex hne
    refine ⟨hclamp, ?_, ?_⟩ <;> rw [hclamp] <;> unfold clampIndex <;>
      split_ifs <;> omega

/-- Witness for C4: relocation by address when the address survives, and the
spec's clamp example (previous cursor 2 over a 2-element replacement clamps
to 1) when it does not. -/
theorem preserve_selection_spec_witness :
    (preserve_selection exRefreshFound).selectionIndex = 1 ∧
    ((preserve_selection exRefreshGone).selectionIndex =
        clampIndex exRefreshGone.selectionIndex exRefreshGone.clients.length ∧
      0 ≤ (preserve_selection exRefreshGone).selectionIndex ∧
      (preserve_selection exRefreshGone).selectionIndex <
        (exRefreshGone.clients.length : Int)) :=
  ⟨(preserve_selection_spec exRefreshFound (by decide)).1 1 (by decide) (by decide),
   (preserve_selection_spec exRefreshGone (by decide)).2 (by decide)⟩

/-- C3: with wrap on, cycling forward from the last index wraps the cursor
to 0 and cycling backward from index 0 wraps it to the last index; on a
one-element sequence (whose selected address is coherent with the cursor,
as every reachable state's is) both cycle helpers leave the state
completely unchanged. -/
theorem setSelection_wrap_semantics (s : SwitcherState) :
    (0 < s.clients.length → s.selectionIndex = (s.clients.length : Int) - 1 →
        (cycle_forward s).selectionIndex = 0) ∧
    (0 < s.clients.length → s.selectionIndex = 0 →
        (cycle_backward s).selectionIndex = (s.clients.length : Int) - 1) ∧
    (s.clients.length = 1 → s.selectionIndex = 0 →
        s.selectedAddress = s.clients[0]?.bind (fun c => c.address) →
        cycle_forward s = s ∧ cycle_backward s = s) := by
  refine ⟨?_, ?_, ?_⟩
  · intro hl hi
    unfold cycle_forward
    rw [if_pos hl]
    simp only [selection_set, if_neg (by omega : ¬ s.clients.length = 0)]
    split_ifs <;> omega
  · intro hl hi
    unfold cycle_backward
    rw [if_pos hl]
    simp only [selection_set, if_neg (by omega : ¬ s.clients.length = 0)]
    split_ifs <;> omega
  · intro hl hi haddr
    obtain ⟨cl, si, ifi, ifa, sa, nr⟩ := s
    dsimp only at hl hi haddr
    subst hi
    rcases cl with _ | ⟨c, _ | ⟨d, tl⟩⟩
    · simp at hl
    · simp only [List.getElem?_cons_zero, Option.bind_some] at haddr
      subst haddr
      refine ⟨?_, ?_⟩ <;>
        simp [cycle_forward, cycle_backward, selection_set]
    · simp at hl

/-- Witness for C3: forward wrap at a two-client state selected on the last
index, backward wrap and the one-element no-ops at a one-client state. -/
theorem setSelection_wrap_semantics_witness :
    (cycle_forward exState2).selectionIndex = 0 ∧
    (cycle_backward exState1).selectionIndex = (exState1.clients.length : Int) - 1 ∧
    (cycle_forward exState1 = exState1 ∧ cycle_backward exState1 = exState1) :=
  ⟨(setSelection_wrap_semantics exState2).1 (by decide) (by decide),
   (setSelection_wrap_semantics exState1).2.1 (by decide) (by decide),
   (setSelection_wrap_semantics exState1).2.2 (by decide) (by decide) (by decide)⟩

/-- C1 counterexample: at a concrete Active state whose anchor (0xa) differs
from the selected window (0xb), the focus-lost branch of the loop issues a
focus request for the selected window and terminates; it is not the cancel
action that restores the anchor, refuting the claim at this input. -/
theorem focus_lost_not_cancel_cex :
    input_dispatch focusLostSignals exState2 =
      (FocusAction.focusSelected (some exClientB), LoopPhase.terminated, exState2) ∧
    wayland_restore_initial_focus_target exState2 = some exClientA ∧
    (input_dispatch focusLostSignals exState2).1 ≠
      FocusAction.restoreInitial (wayland_restore_initial_focus_target exState2) := by
  decide

/-- C1 (amended): when the focus-lost input signal fires during an Active
session, the loop performs a commit-like action — it attempts to focus the
currently selected window, not the SessionAnchor — and transitions to
Terminated. -/
theorem focus_lost_dispatch (sig : InputSignals) (s : SwitcherState)
    (h : sig.focusLost = true) :
    input_dispatch sig s =
      (FocusAction.focusSelected (wayland_focus_selected_target s),
        LoopPhase.terminated, s) := by
  unfold input_dispatch
  rw [if_pos h]

/-- Witness for the amended C1 at a concrete state. -/
theorem focus_lost_dispatch_witness :
    input_dispatch focusLostSignals exState2 =
      (FocusAction.focusSelected (wayland_focus_selected_target exState2),
        LoopPhase.terminated, exState2) :=
  focus_lost_dispatch focusLostSignals exState2 (by decide)

/-- C5: the focus-recency sort orders the list ascending by the FocusLe
order (focusHistoryID ascending with sentinel -1 last), is a permutation of
its input, and sends records with ids [2, -1, 0, 1] to order [0, 1, 2, -1]. -/
theorem sort_clients_by_focus_spec :
    (∀ l : List HyprClientInfo,
        List.Sorted FocusLe (hypr_ipc_sort_clients_by_focus l)) ∧
    (∀ l : List HyprClientInfo,
        List.Perm (hypr_ipc_sort_clients_by_focus l) l) ∧
    hypr_ipc_sort_clients_by_focus [mkFh 2, mkFh (-1), mkFh 0, mkFh 1] =
      [mkFh 0, mkFh 1, mkFh 2, mkFh (-1)] := by
  refine ⟨?_, ?_, ?_⟩
  · intro l
    exact List.sorted_insertionSort FocusLe l
  · intro l
    exact List.perm_insertionSort FocusLe l
  · decide

theorem switcher_ipc_send_length (command : String) :
    (switcher_ipc_send command).length = SWITCHER_IPC_MSG_SIZE := by
  have h : (command.toList.take (SWITCHER_IPC_MSG_SIZE - 1)).length ≤
      SWITCHER_IPC_MSG_SIZE - 1 :=
    List.length_take_le (SWITCHER_IPC_MSG_SIZE - 1) command.toList
  unfold switcher_ipc_send
  simp only [List.length_append, List.length_replicate]
  omega

/-- C6: the codec round-trips — encoding CYCLE_BACKWARD and decoding the
frame yields the CycleBackward command (not Cycle), and every command string
encodes to exactly one 16-byte frame (longer strings are truncated into the
frame, never overflowing it). -/
theorem command_codec_spec :
    switcher_ipc_read_command (switcher_ipc_send SWITCHER_CMD_CYCLE_BACKWARD) =
      SwitcherCmdType.cycleBackward ∧
    (∀ command : String,
        (switcher_ipc_send command).length = SWITCHER_IPC_MSG_SIZE) :=
  ⟨by decide, switcher_ipc_send_length⟩

/-- C7: parsing the openwindow event line from the spec scenario yields an
OpenWindow event whose address is the hex token prefixed with 0x, whose
workspace id is 1, whose class is kitty, and whose title has its internal
comma reassembled. -/
theorem parse_openwindow_event :
    parse_event_line "openwindow>>5c4fe19a0,1,kitty,My,Terminal" =
      (true,
        { type := HyprEventType.openWindow
          address := "0x5c4fe19a0"
          window_class := "kitty"
          title := "My,Terminal"
          workspace_id := 1 }) := by
  decide

theorem clientFromJson_focused (j : Json) (c : HyprClientInfo)
    (h : clientFromJson j = some c) :
    c.focused = decide (c.focusHistoryID = 0) := by
  cases j with
  | jobj fields =>
    simp only [clientFromJson, Option.some.injEq] at h
    subst h
    rfl
  | jnull => simp [clientFromJson] at h
  | jbool b => simp [clientFromJson] at h
  | jint n => simp [clientFromJson] at h
  | jstr t => simp [clientFromJson] at h
  | jarr l => simp [clientFromJson] at h

/-- C8: the directory mapping marks a record focused exactly when its
focusHistoryID is 0; the spec's one-element scenario yields the expected
record (placeholder title, focused, workspace 3); and an empty array is
success with zero records. -/
theorem get_clients_basic_spec :
    (∀ (resp : Json) (records : List HyprClientInfo),
        hypr_ipc_get_clients_basic resp = some records →
        ∀ c ∈ records, c.focused = decide (c.focusHistoryID = 0)) ∧
    hypr_ipc_get_clients_basic exClientsJson = some [exParsedClient] ∧
    hypr_ipc_get_clients_basic (Json.jarr []) = some [] := by
  refine ⟨?_, by decide, by decide⟩
  intro resp records hresp c hc
  cases resp with
  | jarr elems =>
    simp only [hypr_ipc_get_clients_basic, Option.some.injEq] at hresp
    subst hresp
    obtain ⟨j, hj, hcj⟩ := List.mem_filterMap.mp hc
    exact clientFromJson_focused j c hcj
  | jnull => simp [hypr_ipc_get_clients_basic] at hresp
  | jbool b => simp [hypr_ipc_get_clients_basic] at hresp
  | jint n => simp [hypr_ipc_get_clients_basic] at hresp
  | jstr t => simp [hypr_ipc_get_clients_basic] at hresp
  | jobj fields => simp [hypr_ipc_get_clients_basic] at hresp

/-- Witness for C8's general conjunct at the scenario input. -/
theorem get_clients_basic_spec_witness :
    exParsedClient.focused = decide (exParsedClient.focusHistoryID = 0) :=
  get_clients_basic_spec.1 exClientsJson [exParsedClient] (by decide)
    exParsedClient (by decide)

/-- C9: at session start the anchor index is 0 and the anchor address is the
address of the record at index 0 of the recency-sorted sequence; the initial
cursor is 1 with at least two windows, 0 with exactly one, and none (-1)
with zero. -/
theorem session_start_spec (fetched : List HyprClientInfo) :
    (layer_surface_configure_state fetched).initialFocusIndex = 0 ∧
    (∀ c rest, hypr_ipc_sort_clients_by_focus fetched = c :: rest →
        (layer_surface_configure_state fetched).initialFocusAddress = c.address) ∧
    (1 < fetched.length →
        (layer_surface_configure_state fetched).selectionIndex = 1) ∧
    (fetched.length = 1 →
        (layer_surface_configure_state fetched).selectionIndex = 0) ∧
    (fetched.length = 0 →
        (layer_surface_configure_state fetched).selectionIndex = -1) := by
  have hlen : (hypr_ipc_sort_clients_by_focus fetched).length = fetched.length :=
    (List.perm_insertionSort FocusLe fetched).length_eq
  refine ⟨rfl, ?_, ?_, ?_, ?_⟩
  · intro c rest hcs
    unfold layer_surface_configure_state
    dsimp only
    rw [hcs]
  · intro h
    unfold layer_surface_configure_state
    dsimp only
    rw [if_pos (by rw [hlen]; exact h)]
  · intro h
    unfold layer_surface_configure_state
    dsimp only
    rw [if_neg (by rw [hlen]; omega), if_pos (by rw [hlen]; exact h)]
  · intro h
    unfold layer_surface_configure_state
    dsimp only
    rw [if_neg (by rw [hlen]; omega), if_neg (by rw [hlen]; omega)]

/-- Witness for C9 at a concrete two-client fetch. -/
theorem session_start_spec_witness :
    (layer_surface_configure_state [mkFh 1, mkFh 0]).initialFocusIndex = 0 ∧
    (layer_surface_configure_state [mkFh 1, mkFh 0]).initialFocusAddress =
      (mkFh 0).address ∧
    (layer_surface_configure_state [mkFh 1, mkFh 0]).selectionIndex = 1 :=
  ⟨(session_start_spec [mkFh 1, mkFh 0]).1,
   (session_start_spec [mkFh 1, mkFh 0]).2.1 (mkFh 0) [mkFh 1] (by decide),
   (session_start_spec [mkFh 1, mkFh 0]).2.2.1 (by decide)⟩

end HyprSwitcher
